import Mathlib

/-!
Shallow embedding of the core of `src/index.tsx` (Ore & Economic Geology AI):
the per-category input/attachment store, the attachment-to-part encoder
`fileToGenerativePart`, the request assembly and submission logic of
`runAnalysis`, the `clearInputs` / `handleAddAttachment` /
`handleRemoveAttachment` store operations, and the sidebar filtering logic.

JavaScript idioms are modelled explicitly: string truthiness (`s || d`),
`Option` for possibly-undefined values, `Object.values` on the fixed
five-key attachments record as the fixed list of its five fields,
`String.prototype.includes` as substring search on character lists, and
`FileReader` outcomes as an `Except`.  `URL.createObjectURL` /
`URL.revokeObjectURL` calls are counted by ghost fields `allocated` /
`released` on the app state, and backend `generateContent` calls by a ghost
field `invocations`; the source contains no `revokeObjectURL` call, so no
operation increments `released`.
-/

namespace OreGeo

/-- JS string truthiness for `s || d`: the empty string is falsy. -/
def strOr (s d : String) : String := if s == "" then d else s

/-- JS `x || d` where `x : Option String` may be `undefined`. -/
def optOr (s : Option String) (d : String) : String :=
  match s with
  | none => d
  | some t => if t == "" then d else t

/-- JS truthiness of a possibly-undefined string parameter. -/
def jsTruthy (s : Option String) : Bool :=
  match s with
  | none => false
  | some t => t != ""

/-- Substring search on character lists (semantics of JS `includes`). -/
def listIncludes (needle : List Char) : List Char → Bool
  | [] => needle.isEmpty
  | c :: t => needle.isPrefixOf (c :: t) || listIncludes needle t

/-- JS `s.includes(q)`. -/
def jsIncludes (s q : String) : Bool := listIncludes q.data s.data

/-- JS `s.startsWith(pre)`: prefix test on the character sequence. -/
def jsStartsWith (s pre : String) : Bool := pre.data.isPrefixOf s.data

/-- JS `s.endsWith(suf)`: suffix test on the character sequence. -/
def jsEndsWith (s suf : String) : Bool := suf.data.isSuffixOf s.data

/-- JS `s.toLowerCase()` (agrees with the ASCII mapping on every string of
the catalog; the Urdu labels have no case). -/
def jsToLower (s : String) : String := String.mk (s.data.map Char.toLower)

/-- Source union type `Language` with values en and ur (src/index.tsx line 8). -/
inductive Language
  | en
  | ur
deriving DecidableEq, Repr

/-- The three values of the `activeTab` state (src/index.tsx line 224). -/
inductive Tab
  | inputs
  | results
  | heatmap
deriving DecidableEq, Repr

/-- The five fixed categories, in the key order of `DataInputs` /
`INITIAL_ATTACHMENTS` (src/index.tsx lines 10-16, 35-41). -/
inductive Category
  | field
  | handSpecimen
  | microscopy
  | geochemistry
  | remoteSensing
deriving DecidableEq, Repr

/-- A raw `File` handle as the encoder observes it: declared name and mime
type, the text obtained by `readAsText`, the data URL obtained by
`readAsDataURL`, and whether the `FileReader` fires `onerror`. -/
structure File where
  name : String
  type : String
  textContent : String
  dataUrl : String
  readFails : Bool
deriving DecidableEq, Repr

/-- The `type` field of an `Attachment` (src/index.tsx line 22). -/
inductive AttachKind
  | image
  | pdf
  | text
  | other
deriving DecidableEq, Repr

/-- Source `interface Attachment` (src/index.tsx lines 18-23). -/
structure Attachment where
  id : String
  file : File
  previewUrl : Option String
  type : AttachKind
deriving DecidableEq, Repr

/-- Source `interface DataInputs` (src/index.tsx lines 10-16). -/
structure DataInputs where
  field : String
  handSpecimen : String
  microscopy : String
  geochemistry : String
  remoteSensing : String
deriving DecidableEq, Repr

/-- Source `AttachmentsMap`, a record from the five category keys to
attachment lists; the five
keys are always present, in the key order of `INITIAL_ATTACHMENTS`. -/
structure AttachmentsMap where
  field : List Attachment
  handSpecimen : List Attachment
  microscopy : List Attachment
  geochemistry : List Attachment
  remoteSensing : List Attachment
deriving DecidableEq, Repr

/-- Constant `INITIAL_INPUTS` (src/index.tsx lines 27-33). -/
def INITIAL_INPUTS : DataInputs :=
  { field := "", handSpecimen := "", microscopy := "", geochemistry := "",
    remoteSensing := "" }

/-- Constant `INITIAL_ATTACHMENTS` (src/index.tsx lines 35-41). -/
def INITIAL_ATTACHMENTS : AttachmentsMap :=
  { field := [], handSpecimen := [], microscopy := [], geochemistry := [],
    remoteSensing := [] }

/-- JS `Object.values(attachments)`: the five lists in fixed key order. -/
def AttachmentsMap.values (m : AttachmentsMap) : List (List Attachment) :=
  [m.field, m.handSpecimen, m.microscopy, m.geochemistry, m.remoteSensing]

/-- Read the list of one category. -/
def AttachmentsMap.get (m : AttachmentsMap) : Category → List Attachment
  | .field => m.field
  | .handSpecimen => m.handSpecimen
  | .microscopy => m.microscopy
  | .geochemistry => m.geochemistry
  | .remoteSensing => m.remoteSensing

/-- Functional update of one key of the attachments record, as done by
the spread updates in the source. -/
def AttachmentsMap.modifyCat (m : AttachmentsMap) (c : Category)
    (f : List Attachment → List Attachment) : AttachmentsMap :=
  match c with
  | .field => { m with field := f m.field }
  | .handSpecimen => { m with handSpecimen := f m.handSpecimen }
  | .microscopy => { m with microscopy := f m.microscopy }
  | .geochemistry => { m with geochemistry := f m.geochemistry }
  | .remoteSensing => { m with remoteSensing := f m.remoteSensing }

/-- One request part: `{text}` or `{inlineData: {data, mimeType}}`. -/
inductive Part
  | text (content : String)
  | inlineData (data : String) (mimeType : String)
deriving DecidableEq, Repr

/-- The text-file test of `fileToGenerativePart` (src/index.tsx line 194):
the declared mime type begins with "text/", or the file name ends with
".csv", ".json" or ".md". -/
def isTextFile (f : File) : Bool :=
  jsStartsWith f.type "text/" || jsEndsWith f.name ".csv"
    || jsEndsWith f.name ".json" || jsEndsWith f.name ".md"

/-- JS splitting of a data URL at commas, keeping the second chunk, used
to strip the data-URL header (the empty string stands for the undefined
result on a comma-free input, which a data URL never is). -/
def dataUrlPayload (s : String) : String :=
  String.mk (((s.data.dropWhile (fun c => !(c == ','))).drop 1).takeWhile
    (fun c => !(c == ',')))

/-- `fileToGenerativePart` (src/index.tsx lines 189-214).  A text-like file
is read with `readAsText` and wrapped in the delineation marker; any other
file is read with `readAsDataURL` and its base64 payload is sent with the
declared mime type.  `reader.onerror = reject` makes a failed read reject
the promise; the rejection value (a `ProgressEvent`) carries no file name,
so the error is modelled as `Unit`. -/
def fileToGenerativePart (f : File) : Except Unit Part :=
  if f.readFails then .error ()
  else if isTextFile f then
    .ok (.text ("\n[File Attachment: " ++ f.name ++ "]\n" ++ f.textContent ++ "\n"))
  else
    .ok (.inlineData (dataUrlPayload f.dataUrl) f.type)

/-- The part `fileToGenerativePart` yields when the read succeeds. -/
def encodeOk (f : File) : Part :=
  if isTextFile f then
    .text ("\n[File Attachment: " ++ f.name ++ "]\n" ++ f.textContent ++ "\n")
  else
    .inlineData (dataUrlPayload f.dataUrl) f.type

theorem fileToGenerativePart_ok (f : File) (h : f.readFails = false) :
    fileToGenerativePart f = .ok (encodeOk f) := by
  simp only [fileToGenerativePart, encodeOk, h, Bool.false_eq_true, if_false]
  by_cases ht : isTextFile f = true <;> simp [ht]

/-- The label fields of `LABELS[language]` that the core logic reads
(src/index.tsx lines 45-108). -/
structure Labels where
  field : String
  handSpecimen : String
  microscopy : String
  geochem : String
  remote : String
  heatmap : String
  results : String
  module1 : String
  module2 : String
  module3 : String
  module4 : String
  module5 : String
  module6 : String
deriving DecidableEq, Repr

/-- Table `LABELS[language]` (src/index.tsx lines 45-108). -/
def labelsFor : Language → Labels
  | .en =>
    { field := "Field & Outcrop", handSpecimen := "Hand Specimen",
      microscopy := "Microscopy (Thin Section)", geochem := "Geochemistry",
      remote := "Satellite / Remote Sensing", heatmap := "Heat Map Logic",
      results := "Analysis Results",
      module1 := "1. Geological Context", module2 := "2. Structural Intelligence",
      module3 := "3. Ore Petrography", module4 := "4. Geochemical Intelligence",
      module5 := "5. Spectral AI", module6 := "6. Heat-Map Fusion" }
  | .ur =>
    { field := "فیلڈ اور آؤٹ کراپ", handSpecimen := "ہینڈ اسپیسیمین",
      microscopy := "مائیکروسکوپی (تھین سیکشن)", geochem := "جیو کیمسٹری",
      remote := "سیٹلائٹ / ریموٹ سینسنگ", heatmap := "ہیٹ میپ لاجک",
      results := "تجزیاتی نتائج",
      module1 := "1. ارضیاتی سیاق و سباق", module2 := "2. ساختی ذہانت",
      module3 := "3. Ore Petrography", module4 := "4. جیو کیمیکل ذہانت",
      module5 := "5. Spectral AI", module6 := "6. Heat-Map Fusion" }

/-- The error message of the catch-all in `runAnalysis` (src/index.tsx
line 344), chosen by the active language. -/
def genericError : Language → String
  | .en => "Error generating analysis. Please check console."
  | .ur => "تجزیہ کرنے میں خرابی۔ براہ کرم کنسول چیک کریں۔"

/-- The `inputSummary` template literal (src/index.tsx lines 275-282):
each category label followed by the entered text, the empty string
replaced by `"N/A"`. -/
def inputSummary (lang : Language) (inp : DataInputs) : String :=
  "\n--- INPUT DATA ---\n"
    ++ (labelsFor lang).field ++ ": " ++ strOr inp.field "N/A" ++ "\n"
    ++ (labelsFor lang).handSpecimen ++ ": " ++ strOr inp.handSpecimen "N/A" ++ "\n"
    ++ (labelsFor lang).microscopy ++ ": " ++ strOr inp.microscopy "N/A" ++ "\n"
    ++ (labelsFor lang).geochem ++ ": " ++ strOr inp.geochemistry "N/A" ++ "\n"
    ++ (labelsFor lang).remote ++ ": " ++ strOr inp.remoteSensing "N/A" ++ "\n"

/-- The heatmap-script template literal (src/index.tsx lines 288-302) up to
the interpolation of `inputs.field`. -/
def heatmapPromptPrefix : String :=
  "Generate a comprehensive Python script using pandas, numpy, and matplotlib/seaborn to create a geochemical heat map.\n         \n         CRITICAL REQUIREMENT: The script must include clear, easily editable variables at the very top for FILE PATHS.\n         \n         Structure the script code as follows:\n         1. CONFIGURATION SECTION (Top of script):\n            - Define variable `DATA_FILE_PATH = \"path/to/your/data.csv\"` (Comment: User must replace this)\n            - Define variable `OUTPUT_IMAGE_PATH = \"path/to/your/output_heatmap.png\"` (Comment: User must replace this)\n            - Define variable `COORDINATE_COLS = ['X', 'Y']` (or similar placeholder)\n            - Define variable `ELEMENT_COLS` based on the deposit type inferred from inputs.\n\n         2. LOGIC:\n            - Load data from `DATA_FILE_PATH`.\n            - Normalize element values (e.g., MinMaxScaler).\n            - Weight elements based on the deposit model inferred from: "

/-- The heatmap-script template literal (src/index.tsx lines 302-311) after
the interpolation of `inputs.geochemistry`. -/
def heatmapPromptSuffix : String :=
  "\n            - Calculate a Composite Heat Index.\n            - Generate the visualization (e.g. Scatter or Interpolated Map).\n            - Save the plot to `OUTPUT_IMAGE_PATH`.\n\n         3. INSTRUCTIONS:\n             - Briefly explain how the user should change the paths.\n\n         Output ONLY the Python code and the instructions.\n         "

/-- The full heatmap-script instruction with `inputs.field` and
`inputs.geochemistry` interpolated into the weighting clause
(src/index.tsx line 302). -/
def heatmapScriptPrompt (inp : DataInputs) : String :=
  heatmapPromptPrefix ++ inp.field ++ " " ++ inp.geochemistry ++ heatmapPromptSuffix

/-- The `mainPromptText` selection (src/index.tsx lines 284-314).  The
first branch fires whenever `specificModule` is truthy; the second branch
additionally requires `specificModule` to equal "Generate Python Code", a
non-empty string, so it sits under an `else` it can never satisfy. -/
def mainPromptText (specificModule : Option String) (activeTab : Tab)
    (lang : Language) (inp : DataInputs) : String :=
  if jsTruthy specificModule then
    "Run specific module analysis: " ++ specificModule.getD "" ++ ".\n"
      ++ inputSummary lang inp
  else if activeTab == Tab.heatmap && specificModule == some "Generate Python Code" then
    heatmapScriptPrompt inp
  else
    "Perform a full Economic Geology Analysis based on the provided multi-scale data.\n"
      ++ inputSummary lang inp

/-- The kind classification of `handleAddAttachment` (src/index.tsx line
237): image when the mime type begins with "image/", pdf when it is
exactly "application/pdf", and text for everything else; the kind other
is never assigned. -/
def classifyKind (f : File) : AttachKind :=
  if jsStartsWith f.type "image/" then .image
  else if f.type == "application/pdf" then .pdf
  else .text

/-- One new `Attachment` record built by `handleAddAttachment`
(src/index.tsx lines 233-238); `Math.random()` id generation is modelled
by passing the id in, and `URL.createObjectURL(file)` by the handle string
`"blob:" ++ id`. -/
def mkAttachment (id : String) (f : File) : Attachment :=
  { id := id, file := f,
    previewUrl := if jsStartsWith f.type "image/" then some ("blob:" ++ id) else none,
    type := classifyKind f }

/-- The component state of `App` (src/index.tsx lines 219-225), extended
with ghost counters: `allocated` counts `URL.createObjectURL` calls,
`released` counts `URL.revokeObjectURL` calls (the source contains none),
`invocations` counts backend `generateContent` calls. -/
structure AppState where
  language : Language
  inputs : DataInputs
  attachments : AttachmentsMap
  loading : Bool
  result : String
  activeTab : Tab
  searchQuery : String
  allocated : Nat
  released : Nat
  invocations : Nat
deriving DecidableEq, Repr

/-- The initial state of `App` (src/index.tsx lines 219-225). -/
def initialState : AppState :=
  { language := .en, inputs := INITIAL_INPUTS, attachments := INITIAL_ATTACHMENTS,
    loading := false, result := "", activeTab := .inputs, searchQuery := "",
    allocated := 0, released := 0, invocations := 0 }

/-- Handler `handleAddAttachment` (src/index.tsx lines 231-244): no-op on a null
file list, otherwise appends one new record per file in file-list order;
an object URL is allocated for each image file. -/
def handleAddAttachment (c : Category) (files : Option (List (String × File)))
    (s : AppState) : AppState :=
  match files with
  | none => s
  | some fs =>
    { s with
      attachments := s.attachments.modifyCat c
        (fun l => l ++ fs.map (fun p => mkAttachment p.1 p.2)),
      allocated := s.allocated
        + (fs.filter (fun p => jsStartsWith p.2.type "image/")).length }

/-- Handler `handleRemoveAttachment` (src/index.tsx lines 246-251): filters
the list of the category by id; no handle is revoked. -/
def handleRemoveAttachment (c : Category) (id : String) (s : AppState) : AppState :=
  { s with
    attachments := s.attachments.modifyCat c (fun l => l.filter (fun a => a.id != id)) }

/-- Handler `clearInputs` (src/index.tsx lines 253-257): resets inputs, attachments
and the result; nothing else is touched and no handle is revoked. -/
def clearInputs (s : AppState) : AppState :=
  { s with inputs := INITIAL_INPUTS, attachments := INITIAL_ATTACHMENTS, result := "" }

/-- Outcome of the external `generateContent` call: a response whose
`.text` may be missing or empty, or a thrown error. -/
inductive BackendOutcome
  | ok (text : Option String)
  | error
deriving DecidableEq, Repr

/-- The sequential `for (const att of allAttachments) { parts.push(await
fileToGenerativePart(att.file)) }` loop (src/index.tsx lines 321-324):
each read is awaited before the next starts, and the first rejection
aborts the whole assembly. -/
def encodeList : List Attachment → Except Unit (List Part)
  | [] => .ok []
  | a :: rest =>
    match fileToGenerativePart a.file with
    | .error e => .error e
    | .ok p =>
      match encodeList rest with
      | .error e => .error e
      | .ok ps => .ok (p :: ps)

/-- Assembly of the `parts` array (src/index.tsx lines 316-324): the prompt
text at index 0, then the encodings of `Object.values(attachments).flat()`
in that fixed traversal order. -/
def assembleParts (sm : Option String) (tab : Tab) (lang : Language)
    (inp : DataInputs) (m : AttachmentsMap) : Except Unit (List Part) :=
  match encodeList m.values.flatten with
  | .error e => .error e
  | .ok ps => .ok (.text (mainPromptText sm tab lang inp) :: ps)

/-- Controller `runAnalysis` (src/index.tsx lines 259-348), as the settled state after
the async function completes.  A missing API key returns before any state
update.  Otherwise loading is set, the view switches to results and the
previous result is cleared; the prompt is built from the closure snapshot
(in particular the pre-call `activeTab`); an attachment-read rejection
lands in the catch block before any backend call; otherwise the backend is
invoked once and the result is the response text, `"No analysis
generated."` when that is falsy, or the localized generic error message
when the call throws.  `finally` clears loading. -/
def runAnalysis (backend : List Part → BackendOutcome) (apiKey : Bool)
    (specificModule : Option String) (s : AppState) : AppState :=
  if apiKey = false then s
  else
    let s1 := { s with loading := true, activeTab := Tab.results, result := "" }
    match assembleParts specificModule s.activeTab s.language s.inputs s.attachments with
    | .error _ => { s1 with result := genericError s.language, loading := false }
    | .ok parts =>
      match backend parts with
      | .error =>
        { s1 with invocations := s1.invocations + 1,
                  result := genericError s.language, loading := false }
      | .ok t =>
        { s1 with invocations := s1.invocations + 1,
                  result := optOr t "No analysis generated.", loading := false }

/-- The sidebar filtering applied to `moduleList` and `toolList`
(src/index.tsx lines 367-378): keep the items whose lowercased label
contains the lowercased query. -/
def jsFilter (query : String) (items : List String) : List String :=
  items.filter (fun l => jsIncludes (jsToLower l) (jsToLower query))

/-- The labels of `moduleList` (src/index.tsx lines 358-365). -/
def moduleLabels (lang : Language) : List String :=
  [(labelsFor lang).module1, (labelsFor lang).module2, (labelsFor lang).module3,
   (labelsFor lang).module4, (labelsFor lang).module5, (labelsFor lang).module6]

/-! ## Helper lemmas and concrete inputs -/

theorem AttachmentsMap.get_modifyCat (m : AttachmentsMap) (c : Category)
    (f : List Attachment → List Attachment) : (m.modifyCat c f).get c = f (m.get c) := by
  cases c <;> rfl

/-- The empty needle is found in every haystack (JS `includes` with the
empty query). -/
theorem listIncludes_nil (l : List Char) : listIncludes [] l = true := by
  cases l <;> rfl

/-- A run of successful reads encodes to the list of per-file parts, in
traversal order. -/
theorem encodeList_ok (l : List Attachment)
    (h : ∀ a ∈ l, a.file.readFails = false) :
    encodeList l = .ok (l.map (fun a => encodeOk a.file)) := by
  induction l with
  | nil => rfl
  | cons a rest ih =>
    have ha : a.file.readFails = false := h a (by simp)
    have hr := ih (fun x hx => h x (by simp [hx]))
    simp [encodeList, fileToGenerativePart_ok a.file ha, hr]

/-- A sample image file: mime type image/png, read as a data URL. -/
def pngFile : File :=
  { name := "vein.png", type := "image/png", textContent := "",
    dataUrl := "data:image/png;base64,iVBORw0KGgo=", readFails := false }

/-- A sample CSV file: mime type text/csv, read as text. -/
def csvFile : File :=
  { name := "assays.csv", type := "text/csv", textContent := "Cu,Au\n900,2",
    dataUrl := "", readFails := false }

/-- A sample PDF file. -/
def pdfFile : File :=
  { name := "report.pdf", type := "application/pdf", textContent := "",
    dataUrl := "data:application/pdf;base64,JVBERi0=", readFails := false }

/-- A file whose name ends in ".txt" but whose declared mime type is not a
text type. -/
def txtBinFile : File :=
  { name := "notes.txt", type := "application/octet-stream", textContent := "hello",
    dataUrl := "data:application/octet-stream;base64,aGVsbG8=", readFails := false }

/-- A CSV file whose read fails (`FileReader` fires `onerror`). -/
def badFile : File :=
  { name := "assays.csv", type := "text/csv", textContent := "",
    dataUrl := "", readFails := true }

/-! ## Claims -/

/-- C10: `clearInputs` resets all category texts, all attachment lists and
the held analysis result to their initial values, while leaving the active
presentation view, the loading flag, the selected language (and the search
query) unchanged. -/
theorem c10_clear_resets_and_frames (s : AppState) :
    (clearInputs s).inputs = INITIAL_INPUTS
    ∧ (clearInputs s).attachments = INITIAL_ATTACHMENTS
    ∧ (clearInputs s).result = ""
    ∧ (clearInputs s).activeTab = s.activeTab
    ∧ (clearInputs s).loading = s.loading
    ∧ (clearInputs s).language = s.language
    ∧ (clearInputs s).searchQuery = s.searchQuery := by
  simp [clearInputs]

/-- C9: every attachment record newly created by `handleAddAttachment` is
classified image exactly when its mime type begins with "image/", pdf
exactly when the mime type is exactly "application/pdf" and not an image
type, and text in every remaining case; the kind other is never
assigned. -/
theorem c9_kind_never_other (c : Category) (fs : List (String × File))
    (s : AppState) (a : Attachment)
    (hmem : a ∈ (handleAddAttachment c (some fs) s).attachments.get c)
    (hnew : a ∉ s.attachments.get c) :
    a.type ≠ AttachKind.other
    ∧ (a.type = AttachKind.image ↔ jsStartsWith a.file.type "image/" = true)
    ∧ (a.type = AttachKind.pdf ↔
        (jsStartsWith a.file.type "image/" = false ∧ a.file.type = "application/pdf"))
    ∧ (a.type = AttachKind.text ↔
        (jsStartsWith a.file.type "image/" = false ∧ a.file.type ≠ "application/pdf")) := by
  have hset : (handleAddAttachment c (some fs) s).attachments.get c
      = s.attachments.get c ++ fs.map (fun p => mkAttachment p.1 p.2) := by
    simp [handleAddAttachment, AttachmentsMap.get_modifyCat]
  rw [hset, List.mem_append] at hmem
  rcases hmem with h | h
  · exact absurd h hnew
  · obtain ⟨p, _, rfl⟩ := List.mem_map.mp h
    simp only [mkAttachment, classifyKind]
    by_cases h1 : jsStartsWith p.2.type "image/" = true
    · simp [h1]
    · have h1' : jsStartsWith p.2.type "image/" = false := by
        simpa using h1
      by_cases h2 : p.2.type = "application/pdf"
      · rw [h2] at h1'
        simp [h1', h2]
      · simp [h1', h2]

/-- Witness for C9: adding a PNG file to the empty store creates a record
of kind image. -/
theorem c9_kind_never_other_witness :
    (mkAttachment "a1" pngFile
        ∈ (handleAddAttachment Category.field (some [("a1", pngFile)])
            initialState).attachments.get Category.field)
    ∧ mkAttachment "a1" pngFile ∉ initialState.attachments.get Category.field
    ∧ ((mkAttachment "a1" pngFile).type ≠ AttachKind.other
        ∧ ((mkAttachment "a1" pngFile).type = AttachKind.image ↔
            jsStartsWith (mkAttachment "a1" pngFile).file.type "image/" = true)
        ∧ ((mkAttachment "a1" pngFile).type = AttachKind.pdf ↔
            (jsStartsWith (mkAttachment "a1" pngFile).file.type "image/" = false
              ∧ (mkAttachment "a1" pngFile).file.type = "application/pdf"))
        ∧ ((mkAttachment "a1" pngFile).type = AttachKind.text ↔
            (jsStartsWith (mkAttachment "a1" pngFile).file.type "image/" = false
              ∧ (mkAttachment "a1" pngFile).file.type ≠ "application/pdf"))) :=
  ⟨by decide, by decide,
    c9_kind_never_other Category.field [("a1", pngFile)] initialState
      (mkAttachment "a1" pngFile) (by decide) (by decide)⟩

/-- C8: filtering with the empty query returns the whole catalog unchanged
and in order; filtering is case-insensitive substring matching on the
display labels; the query "OrE" retains the module labeled
"3. Ore Petrography". -/
theorem c8_filter_spec :
    (∀ items : List String, jsFilter "" items = items)
    ∧ (∀ (q : String) (items : List String) (l : String),
        l ∈ jsFilter q items ↔
          l ∈ items ∧ jsIncludes (jsToLower l) (jsToLower q) = true)
    ∧ (labelsFor Language.en).module3 ∈ jsFilter "OrE" (moduleLabels Language.en)
    ∧ (labelsFor Language.en).module3 = "3. Ore Petrography" := by
  refine ⟨?_, ?_, by decide, rfl⟩
  · intro items
    refine List.filter_eq_self.mpr (fun l _ => ?_)
    simpa [jsIncludes, jsToLower] using listIncludes_nil (jsToLower l).data
  · intro q items l
    simp [jsFilter, List.mem_filter]

/-- Counterexample for C6: one image attachment is added (allocating one
preview handle) and then removed, and the store is also cleared; in both
cases the number of released handles stays 0, so the handle of the removed
attachment is not released exactly once. -/
theorem c6_counterexample :
    (handleAddAttachment Category.field (some [("a1", pngFile)]) initialState).allocated = 1
    ∧ (handleRemoveAttachment Category.field "a1"
        (handleAddAttachment Category.field (some [("a1", pngFile)]) initialState)).attachments.field = []
    ∧ (handleRemoveAttachment Category.field "a1"
        (handleAddAttachment Category.field (some [("a1", pngFile)]) initialState)).released = 0
    ∧ (clearInputs
        (handleAddAttachment Category.field (some [("a1", pngFile)]) initialState)).released = 0
    ∧ ¬ (handleRemoveAttachment Category.field "a1"
        (handleAddAttachment Category.field (some [("a1", pngFile)]) initialState)).released = 1 := by
  decide

/-- C6 (amended): preview handles are allocated for image attachments but
never released: `handleRemoveAttachment` drops the matching record and
`clearInputs` resets the lists without revoking any handle, so no handle
is ever double-released and every allocated handle leaks. -/
theorem c6_handles_never_released (s : AppState) (c : Category) (id : String)
    (fs : Option (List (String × File))) :
    (handleRemoveAttachment c id s).released = s.released
    ∧ (clearInputs s).released = s.released
    ∧ (handleAddAttachment c fs s).released = s.released
    ∧ (handleRemoveAttachment c id s).allocated = s.allocated
    ∧ (clearInputs s).allocated = s.allocated := by
  cases fs <;> simp [handleRemoveAttachment, clearInputs, handleAddAttachment]

/-- Counterexample for C7: a file named "notes.txt" whose declared mime
type is "application/octet-stream" satisfies the claimed text criterion
(name ends in txt) but is encoded as a `BinaryPart`, because the source
checks only the extensions csv, json and md. -/
theorem c7_counterexample :
    jsEndsWith txtBinFile.name ".txt" = true
    ∧ jsStartsWith txtBinFile.type "text/" = false
    ∧ txtBinFile.readFails = false
    ∧ fileToGenerativePart txtBinFile
        = Except.ok (Part.inlineData "aGVsbG8=" "application/octet-stream") :=
  ⟨rfl, rfl, rfl, rfl⟩

/-- C7 (amended): `encode` yields a `TextPart` — the literal decoded text
prefixed with a delineation marker naming the source file — exactly when
the declared mime type begins with "text/" or the name ends in csv, json
or md (there is no txt-extension check); every other file yields a
`BinaryPart` with the base64 payload of its data URL and the original mime
type. -/
theorem c7_encode_rule (f : File) (h : f.readFails = false) :
    (isTextFile f
      = (jsStartsWith f.type "text/" || jsEndsWith f.name ".csv"
          || jsEndsWith f.name ".json" || jsEndsWith f.name ".md"))
    ∧ (isTextFile f = true →
        fileToGenerativePart f
          = Except.ok (Part.text
              ("\n[File Attachment: " ++ f.name ++ "]\n" ++ f.textContent ++ "\n")))
    ∧ (isTextFile f = false →
        fileToGenerativePart f
          = Except.ok (Part.inlineData (dataUrlPayload f.dataUrl) f.type)) := by
  refine ⟨rfl, ?_, ?_⟩ <;> intro ht <;> simp [fileToGenerativePart, h, ht]

/-- Witness for C7 (amended): the sample CSV file is text-like and encodes
to the marked text part. -/
theorem c7_encode_rule_witness :
    csvFile.readFails = false
    ∧ ((isTextFile csvFile
        = (jsStartsWith csvFile.type "text/" || jsEndsWith csvFile.name ".csv"
            || jsEndsWith csvFile.name ".json" || jsEndsWith csvFile.name ".md"))
      ∧ (isTextFile csvFile = true →
          fileToGenerativePart csvFile
            = Except.ok (Part.text
                ("\n[File Attachment: " ++ csvFile.name ++ "]\n"
                  ++ csvFile.textContent ++ "\n")))
      ∧ (isTextFile csvFile = false →
          fileToGenerativePart csvFile
            = Except.ok (Part.inlineData (dataUrlPayload csvFile.dataUrl) csvFile.type))) :=
  ⟨rfl, c7_encode_rule csvFile rfl⟩

/-- The parts contributed by one category: its attachments encoded in
insertion order. -/
def encodedCat (l : List Attachment) : List Part := l.map (fun a => encodeOk a.file)

/-- C2: when every attachment read succeeds, the assembled part list is
the prompt text at index 0 followed by the encoded attachments grouped by
category in the fixed order field, handSpecimen, microscopy, geochemistry,
remoteSensing, and in insertion order within each category.  Each read is
joined before the next one starts (the source awaits them sequentially),
so the order is independent of I/O completion order. -/
theorem c2_parts_order (sm : Option String) (tab : Tab) (lang : Language)
    (inp : DataInputs) (m : AttachmentsMap)
    (h : ∀ a ∈ m.values.flatten, a.file.readFails = false) :
    assembleParts sm tab lang inp m
      = Except.ok (Part.text (mainPromptText sm tab lang inp)
          :: (encodedCat m.field ++ encodedCat m.handSpecimen
              ++ encodedCat m.microscopy ++ encodedCat m.geochemistry
              ++ encodedCat m.remoteSensing)) := by
  have he := encodeList_ok m.values.flatten h
  simp only [AttachmentsMap.values, List.flatten_cons, List.flatten_nil,
    List.append_nil] at he
  simp [assembleParts, AttachmentsMap.values, he, encodedCat]

/-- A concrete attachments map: two files in the field category, one in
geochemistry. -/
def c2map : AttachmentsMap :=
  { INITIAL_ATTACHMENTS with
    field := [mkAttachment "f1" csvFile, mkAttachment "f2" pngFile],
    geochemistry := [mkAttachment "g1" pdfFile] }

/-- Witness for C2: the ordering law evaluated on `c2map`. -/
theorem c2_parts_order_witness :
    (∀ a ∈ c2map.values.flatten, a.file.readFails = false)
    ∧ assembleParts none Tab.inputs Language.en INITIAL_INPUTS c2map
        = Except.ok (Part.text (mainPromptText none Tab.inputs Language.en INITIAL_INPUTS)
            :: (encodedCat c2map.field ++ encodedCat c2map.handSpecimen
                ++ encodedCat c2map.microscopy ++ encodedCat c2map.geochemistry
                ++ encodedCat c2map.remoteSensing)) :=
  ⟨by decide, c2_parts_order none Tab.inputs Language.en INITIAL_INPUTS c2map (by decide)⟩

/-- C3 (code bug): the heatmap-script branch of `mainPromptText` is dead
code.  Its guard requires `specificModule` to equal the non-empty string
"Generate Python Code", but the branch sits under the `else` of a test
that already fires for every truthy `specificModule`; so
`runAnalysis("Generate Python Code")` from the heatmap view produces the
generic "Run specific module analysis" prompt, never the structured
Python-script instruction. -/
theorem c3_heatmap_script_never_produced :
    (∀ (sm : Option String) (tab : Tab) (lang : Language) (inp : DataInputs),
      mainPromptText sm tab lang inp =
        if jsTruthy sm then
          "Run specific module analysis: " ++ sm.getD "" ++ ".\n"
            ++ inputSummary lang inp
        else
          "Perform a full Economic Geology Analysis based on the provided multi-scale data.\n"
            ++ inputSummary lang inp)
    ∧ mainPromptText (some "Generate Python Code") Tab.heatmap Language.en INITIAL_INPUTS
        = "Run specific module analysis: Generate Python Code.\n"
            ++ inputSummary Language.en INITIAL_INPUTS := by
  constructor
  · intro sm tab lang inp
    cases sm with
    | none => cases tab <;> rfl
    | some str =>
      by_cases h : str = ""
      · subst h; cases tab <;> rfl
      · have hb : (str != "") = true := by simpa [bne_iff_ne] using h
        simp [mainPromptText, jsTruthy, hb]
  · set_option maxRecDepth 8192 in decide

/-- A state in flight: a submission is loading, the heatmap view is
active, a previous result is held, one backend call has been made. -/
def c1s0 : AppState :=
  { initialState with
    loading := true, activeTab := Tab.heatmap,
    result := "previous analysis", invocations := 1 }

/-- Counterexample for C1: `runAnalysis` invoked while `loading` is true
(the Submitting state) is not a no-op — it performs a second backend
invocation (the ghost counter goes from 1 to 2) and changes the state. -/
theorem c1_counterexample :
    c1s0.loading = true
    ∧ (runAnalysis (fun _ => BackendOutcome.ok (some "NEW")) true
        (some "1. Geological Context") c1s0).invocations = 2
    ∧ runAnalysis (fun _ => BackendOutcome.ok (some "NEW")) true
        (some "1. Geological Context") c1s0 ≠ c1s0 := by
  refine ⟨rfl, by decide, ?_⟩
  intro h
  have := congrArg AppState.invocations h
  simp [c1s0] at this
  revert this
  decide

/-- C1 (amended): `runAnalysis` has no Submitting guard.  With the API key
present it proceeds even while `loading` is true — it switches to the
results view, clears loading at completion, and performs one more backend
invocation; the only controller-level no-op is a missing API key (the UI
merely disables the full-analysis button while loading; the module and
heatmap triggers stay enabled). -/
theorem c1_no_submitting_guard (backend : List Part → BackendOutcome)
    (sm : Option String) (s : AppState) (ps : List Part)
    (_hload : s.loading = true)
    (henc : encodeList s.attachments.values.flatten = .ok ps) :
    (runAnalysis backend true sm s).invocations = s.invocations + 1
    ∧ (runAnalysis backend true sm s).activeTab = Tab.results
    ∧ (runAnalysis backend true sm s).loading = false
    ∧ runAnalysis backend false sm s = s := by
  have ha : assembleParts sm s.activeTab s.language s.inputs s.attachments
      = .ok (Part.text (mainPromptText sm s.activeTab s.language s.inputs) :: ps) := by
    simp [assembleParts, henc]
  refine ⟨?_, ?_, ?_, rfl⟩ <;>
  · simp only [runAnalysis, ha]
    cases backend (Part.text (mainPromptText sm s.activeTab s.language s.inputs) :: ps) <;>
      simp

/-- Witness for C1 (amended): the in-flight state `c1s0` with no
attachments. -/
theorem c1_no_submitting_guard_witness :
    c1s0.loading = true
    ∧ encodeList c1s0.attachments.values.flatten = Except.ok []
    ∧ ((runAnalysis (fun _ => BackendOutcome.error) true none c1s0).invocations
          = c1s0.invocations + 1
        ∧ (runAnalysis (fun _ => BackendOutcome.error) true none c1s0).activeTab
            = Tab.results
        ∧ (runAnalysis (fun _ => BackendOutcome.error) true none c1s0).loading = false
        ∧ runAnalysis (fun _ => BackendOutcome.error) false none c1s0 = c1s0) :=
  ⟨rfl, rfl,
    c1_no_submitting_guard (fun _ => BackendOutcome.error) none c1s0 [] rfl rfl⟩

/-- A state holding entered text and one attachment whose read fails. -/
def c4state : AppState :=
  { initialState with
    inputs := { INITIAL_INPUTS with geochemistry := "Cu-Au anomaly" },
    attachments := { INITIAL_ATTACHMENTS with geochemistry := [mkAttachment "g1" badFile] } }

/-- Counterexample for C4: when the read of "assays.csv" fails, the
submission does abort before any backend call and the inputs stay intact,
but the surfaced message is the localized generic error text, which does
not identify the failing file (it does not contain "assays.csv"). -/
theorem c4_counterexample :
    badFile.readFails = true
    ∧ badFile.name = "assays.csv"
    ∧ (runAnalysis (fun _ => BackendOutcome.ok (some "UNREACHED")) true none
        c4state).invocations = 0
    ∧ (runAnalysis (fun _ => BackendOutcome.ok (some "UNREACHED")) true none
        c4state).result = genericError Language.en
    ∧ jsIncludes (runAnalysis (fun _ => BackendOutcome.ok (some "UNREACHED")) true none
        c4state).result "assays.csv" = false
    ∧ (runAnalysis (fun _ => BackendOutcome.ok (some "UNREACHED")) true none
        c4state).inputs = c4state.inputs := by
  refine ⟨rfl, rfl, rfl, rfl, by decide, rfl⟩

/-- C4 (amended): if any attachment read fails during assembly, the
submission aborts before any backend call and previously entered inputs
and attachments remain intact, but the `Failure` state carries the
localized generic error message, which does not identify the failing
file. -/
theorem c4_encoding_failure_aborts (backend : List Part → BackendOutcome)
    (sm : Option String) (s : AppState)
    (henc : encodeList s.attachments.values.flatten = .error ()) :
    (runAnalysis backend true sm s).result = genericError s.language
    ∧ (runAnalysis backend true sm s).invocations = s.invocations
    ∧ (runAnalysis backend true sm s).inputs = s.inputs
    ∧ (runAnalysis backend true sm s).attachments = s.attachments
    ∧ (runAnalysis backend true sm s).loading = false := by
  have ha : assembleParts sm s.activeTab s.language s.inputs s.attachments
      = .error () := by
    simp [assembleParts, henc]
  simp [runAnalysis, ha]

/-- Witness for C4 (amended): the failing-attachment state `c4state`. -/
theorem c4_encoding_failure_aborts_witness :
    encodeList c4state.attachments.values.flatten = Except.error ()
    ∧ ((runAnalysis (fun _ => BackendOutcome.ok (some "UNREACHED")) true none
          c4state).result = genericError c4state.language
        ∧ (runAnalysis (fun _ => BackendOutcome.ok (some "UNREACHED")) true none
            c4state).invocations = c4state.invocations
        ∧ (runAnalysis (fun _ => BackendOutcome.ok (some "UNREACHED")) true none
            c4state).inputs = c4state.inputs
        ∧ (runAnalysis (fun _ => BackendOutcome.ok (some "UNREACHED")) true none
            c4state).attachments = c4state.attachments
        ∧ (runAnalysis (fun _ => BackendOutcome.ok (some "UNREACHED")) true none
            c4state).loading = false) :=
  ⟨rfl, c4_encoding_failure_aborts (fun _ => BackendOutcome.ok (some "UNREACHED"))
    none c4state rfl⟩

/-- Counterexample for C5: a backend call that succeeds with empty result
text does not land in the localized generic failure message — the result
becomes the fixed English fallback "No analysis generated.", set through
the success path. -/
theorem c5_counterexample :
    (runAnalysis (fun _ => BackendOutcome.ok (some "")) true none initialState).result
      = "No analysis generated."
    ∧ (runAnalysis (fun _ => BackendOutcome.ok (some "")) true none initialState).result
        ≠ genericError initialState.language
    ∧ (runAnalysis (fun _ => BackendOutcome.ok none) true none initialState).result
        = "No analysis generated."
    ∧ (runAnalysis (fun _ => BackendOutcome.ok (some "")) true none
        initialState).invocations = 1 := by
  refine ⟨rfl, by decide, rfl, rfl⟩

/-- C5 (amended): when the backend call throws, the controller lands in
`Failure` with the localized generic error message; when the call succeeds
but the result text is missing or empty, the result is the fixed English
fallback "No analysis generated." (not the localized generic message);
only a non-empty returned text is held as `Success(text)`. -/
theorem c5_backend_result (sm : Option String) (s : AppState) (ps : List Part)
    (t : String)
    (henc : encodeList s.attachments.values.flatten = .ok ps)
    (ht : t ≠ "") :
    (runAnalysis (fun _ => BackendOutcome.error) true sm s).result
      = genericError s.language
    ∧ (runAnalysis (fun _ => BackendOutcome.ok none) true sm s).result
        = "No analysis generated."
    ∧ (runAnalysis (fun _ => BackendOutcome.ok (some "")) true sm s).result
        = "No analysis generated."
    ∧ (runAnalysis (fun _ => BackendOutcome.ok (some t)) true sm s).result = t
    ∧ (runAnalysis (fun _ => BackendOutcome.error) true sm s).loading = false := by
  have ha : assembleParts sm s.activeTab s.language s.inputs s.attachments
      = .ok (Part.text (mainPromptText sm s.activeTab s.language s.inputs) :: ps) := by
    simp [assembleParts, henc]
  refine ⟨?_, ?_, ?_, ?_, ?_⟩ <;> simp [runAnalysis, ha, optOr, ht]

/-- Witness for C5 (amended): the empty store with a non-empty returned
text "Porphyry Cu". -/
theorem c5_backend_result_witness :
    encodeList initialState.attachments.values.flatten = Except.ok []
    ∧ "Porphyry Cu" ≠ ""
    ∧ ((runAnalysis (fun _ => BackendOutcome.error) true none initialState).result
          = genericError initialState.language
        ∧ (runAnalysis (fun _ => BackendOutcome.ok none) true none initialState).result
            = "No analysis generated."
        ∧ (runAnalysis (fun _ => BackendOutcome.ok (some "")) true none initialState).result
            = "No analysis generated."
        ∧ (runAnalysis (fun _ => BackendOutcome.ok (some "Porphyry Cu")) true none
            initialState).result = "Porphyry Cu"
        ∧ (runAnalysis (fun _ => BackendOutcome.error) true none initialState).loading
            = false) :=
  ⟨rfl, by decide, c5_backend_result none initialState [] "Porphyry Cu" rfl (by decide)⟩

end OreGeo
